import Mathlib

/-!
Shallow embedding of `src/screen_operation_server/operations.py` from
mcp-screen-operation: monitor enumeration, monitor/window capture, stitching,
and the three platform window-list backends.  The `mss` capture library and
the PIL/base64 encoders are external collaborators: the raw screen contents
and the PNG/base64 encoders are parameters of the environment, while the grab
contract (a grab of a rectangle returns a BGRA buffer of exactly that
rectangle's dimensions) follows the spec of the capture primitive.
-/

namespace ScreenOps

/-- One RGB pixel, as (r, g, b) byte values. -/
abbrev Pix := Nat × Nat × Nat

/-- A capture rectangle in virtual-desktop coordinates: the `monitor` dicts of
`operations.py` (`{top, left, width, height}`).  Window-derived rectangles may
have non-positive width/height, hence `Int`. -/
structure Rect where
  top : Int
  left : Int
  width : Int
  height : Int
deriving DecidableEq, Repr

/-- A decoded bitmap: dimensions plus a pixel lookup (PIL `Image`). -/
structure Image where
  width : Nat
  height : Nat
  pix : Nat → Nat → Pix

/-- Raw screenshot as returned by `mss.grab`: `size` and the flat BGRA byte
buffer (`sct_img.size`, `sct_img.bgra`). -/
structure ScreenShot where
  w : Nat
  h : Nat
  bgra : List Nat

/-- The result dict `{"content": ..., "mime_type": ...}`. -/
structure Payload where
  content : String
  mime_type : String
deriving DecidableEq, Repr

/-- The typed failures raised by `operations.py` (`ValueError` carrying the
offending input, and the uncaught `IndexError` of `sct.monitors[0]` on an
empty monitor list). -/
inductive CapErr where
  | monitorNotFound (n : Int)
  | windowNotFound (id : Nat)
  | indexError
deriving DecidableEq, Repr

/-- The external world: the monitor list `sct.monitors` (index 0 = virtual
union when the library reports one), the screen contents (BGRA bytes the
compositor returns for a rectangle), and the external PNG and base64
encoders (PIL `save(format="PNG")`, `base64.b64encode`). -/
structure Env where
  monitors : List Rect
  screen : Rect → List Nat
  png : List (List Pix) → List Nat
  b64 : List Nat → String

/-- Python list indexing `l[i]`: non-negative indices from the front,
negative indices count from the back, `none` models `IndexError`. -/
def pyGet (l : List α) (i : Int) : Option α :=
  if 0 ≤ i then l.get? i.toNat
  else
    let j : Int := (l.length : Int) + i
    if 0 ≤ j then l.get? j.toNat else none

/-- `sct.grab(monitor)`: returns the BGRA buffer for exactly the requested
rectangle, with the rectangle's own dimensions. -/
def grab (env : Env) (r : Rect) : ScreenShot :=
  ⟨r.width.toNat, r.height.toNat, env.screen r⟩

/-- `Image.frombytes("RGB", size, raw, "raw", "BGRX")`: pixel (x, y) takes
bytes 4*(y*w+x)+2, +1, +0 of the buffer as R, G, B; byte +3 is ignored. -/
def frombytesBGRX (w h : Nat) (raw : List Nat) : Image :=
  { width := w
    height := h
    pix := fun x y =>
      (raw.getD (4 * (y * w + x) + 2) 0,
       raw.getD (4 * (y * w + x) + 1) 0,
       raw.getD (4 * (y * w + x)) 0) }

/-- Grab a rectangle and decode it to RGB, as both `_capture_to_base64` and
`capture_all_screens` do. -/
def grabImage (env : Env) (r : Rect) : Image :=
  frombytesBGRX (grab env r).w (grab env r).h (grab env r).bgra

/-- Row-major pixel matrix of an image: what PIL's PNG encoder consumes
(PNG bytes depend only on dimensions and pixel values). -/
def Image.toMatrix (img : Image) : List (List Pix) :=
  (List.range img.height).map fun y =>
    (List.range img.width).map fun x => img.pix x y

/-- `img.save(buffer, format="PNG")` then `base64.b64encode(...)` packed with
the constant mime type. -/
def encodePayload (env : Env) (img : Image) : Payload :=
  { content := env.b64 (env.png img.toMatrix), mime_type := "image/png" }

/-- `_capture_to_base64(sct, monitor)`. -/
def capture_to_base64 (env : Env) (monitor : Rect) : Payload :=
  encodePayload env (grabImage env monitor)

/-- One entry of `get_screen_info()["monitors"]`. -/
structure MonitorInfo where
  id : Nat
  width : Int
  height : Int
  top : Int
  left : Int
deriving DecidableEq, Repr

/-- The dict returned by `get_screen_info`. -/
structure ScreenInfo where
  monitor_count : Nat
  monitors : List MonitorInfo
deriving DecidableEq, Repr

/-- `get_screen_info()`. -/
def get_screen_info (env : Env) : ScreenInfo :=
  { monitor_count :=
      if 1 < env.monitors.length then env.monitors.length - 1 else 1
    monitors :=
      env.monitors.enum.map fun p =>
        ⟨p.1, p.2.width, p.2.height, p.2.top, p.2.left⟩ }

/-- `capture_screen_by_number(monitor_number)`: Python indexing into
`sct.monitors`, `IndexError` rethrown as the monitor-not-found failure. -/
def capture_screen_by_number (env : Env) (monitor_number : Int) :
    Except CapErr Payload :=
  match pyGet env.monitors monitor_number with
  | some monitor => .ok (capture_to_base64 env monitor)
  | none => .error (.monitorNotFound monitor_number)

/-- `stitched_image.paste(img, (x_offset, 0))` for canvases that contain the
pasted image (the only use in the source). -/
def paste (canvas img : Image) (xoff : Nat) : Image :=
  Image.mk canvas.width canvas.height fun x y =>
    if xoff ≤ x ∧ x < xoff + img.width ∧ y < img.height then
      img.pix (x - xoff) y
    else canvas.pix x y

/-- The paste loop of `capture_all_screens`: paste each image at the running
x offset, advancing the offset by the image's width. -/
def stitchAux (acc : Image) (xoff : Nat) : List Image → Image
  | [] => acc
  | img :: rest => stitchAux (paste acc img xoff) (xoff + img.width) rest

/-- The stitching block of `capture_all_screens`: a fresh black RGB canvas of
width `sum(img.width)` and height `max(img.height)`, filled by the paste
loop. -/
def stitch (imgs : List Image) : Image :=
  stitchAux
    ⟨(imgs.map Image.width).sum,
     imgs.foldl (fun a i => max a i.height) 0,
     fun _ _ => (0, 0, 0)⟩
    0 imgs

/-- `capture_all_screens()`: skip `monitors[0]`; with no remaining monitor
capture `monitors[0]` directly, otherwise grab each and stitch. -/
def capture_all_screens (env : Env) : Except CapErr Payload :=
  let monitors_to_capture := env.monitors.drop 1
  if monitors_to_capture.isEmpty then
    match env.monitors with
    | [] => .error .indexError
    | m :: _ => .ok (capture_to_base64 env m)
  else
    .ok (encodePayload env (stitch (monitors_to_capture.map (grabImage env))))

/-- One entry of the lists returned by the window enumerators. -/
structure WindowInfo where
  id : Nat
  title : String
  x : Int
  y : Int
  width : Int
  height : Int
deriving DecidableEq, Repr

/-- A `(left, top, right, bottom)` tuple from `win32gui.GetWindowRect`. -/
structure WRect where
  l : Int
  t : Int
  r : Int
  b : Int
deriving DecidableEq, Repr

/-- A top-level window as seen by `win32gui.EnumWindows`: handle, the
`IsWindowVisible` flag, the `GetWindowText` string, the window rect. -/
structure WinW where
  hwnd : Nat
  visible : Bool
  text : String
  rect : WRect
deriving DecidableEq, Repr

/-- `_get_window_list_windows()`: keep visible windows with a non-empty
text whose rect has positive width and height. -/
def get_window_list_windows (ws : List WinW) : List WindowInfo :=
  ws.filterMap fun w =>
    if w.visible && !(w.text == "") then
      let width := w.rect.r - w.rect.l
      let height := w.rect.b - w.rect.t
      if 0 < width && 0 < height then
        some ⟨w.hwnd, w.text, w.rect.l, w.rect.t, width, height⟩
      else none
    else none

/-- `_capture_window_windows(window_id)`: `GetWindowRect` (`none` models the
`pywintypes.error` of a dead handle), then capture the resulting rectangle
with no dimension check. -/
def capture_window_windows (env : Env) (getRect : Nat → Option WRect)
    (window_id : Nat) : Except CapErr Payload :=
  match getRect window_id with
  | none => .error (.windowNotFound window_id)
  | some rect =>
      .ok (capture_to_base64 env ⟨rect.t, rect.l, rect.r - rect.l, rect.b - rect.t⟩)

/-- An X11 client window as `_get_window_list_linux` reads it: `queryOk`
models the per-window `try` block succeeding (any X error skips the window),
`viewable` the `map_state == IsViewable` test, `netName`/`wmName` the decoded
`_NET_WM_NAME` / `WM_NAME` properties (`none` = property absent), then
geometry and root-translated coordinates. -/
structure WinL where
  id : Nat
  queryOk : Bool
  viewable : Bool
  netName : Option String
  wmName : Option String
  geomW : Nat
  geomH : Nat
  coordX : Int
  coordY : Int
deriving DecidableEq, Repr

/-- The title logic of `_get_window_list_linux`: `_NET_WM_NAME` if present and
non-empty, else `WM_NAME` if present, else empty. -/
def linuxTitle (w : WinL) : String :=
  let t := w.netName.getD ""
  if t == "" then w.wmName.getD "" else t

/-- `_get_window_list_linux()`: keep viewable windows whose resolved title is
non-empty; windows whose X queries fail are skipped. -/
def get_window_list_linux (ws : List WinL) : List WindowInfo :=
  ws.filterMap fun w =>
    if w.queryOk && w.viewable && !(linuxTitle w == "") then
      some ⟨w.id, linuxTitle w, w.coordX, w.coordY, (w.geomW : Int), (w.geomH : Int)⟩
    else none

/-- What `_capture_window_linux` reads for a window id: root-translated
coordinates and geometry; `none` models any exception in the lookup block. -/
def capture_window_linux (env : Env)
    (lookup : Nat → Option (Int × Int × Nat × Nat)) (window_id : Nat) :
    Except CapErr Payload :=
  match lookup window_id with
  | none => .error (.windowNotFound window_id)
  | some (x, y, w, h) =>
      .ok (capture_to_base64 env ⟨y, x, (w : Int), (h : Int)⟩)

/-- A Quartz window-info dictionary: the optional keys read by the macOS
backend (`kCGWindowLayer`, `kCGWindowOwnerName`, `kCGWindowName`,
`kCGWindowNumber`, and the `kCGWindowBounds` components). -/
structure WinM where
  number : Nat
  layer : Option Int
  ownerName : Option String
  windowName : Option String
  boundsX : Option Int
  boundsY : Option Int
  boundsW : Option Int
  boundsH : Option Int
deriving DecidableEq, Repr

/-- Python truthiness of `window.get(key)` for a string value: present and
non-empty. -/
def pyTruthy (s : Option String) : Bool :=
  match s with
  | none => false
  | some v => !(v == "")

/-- `_get_window_list_macos()`: keep layer-0 windows with a truthy owner
name; the title is always `f"{owner} - {name}"`, missing bounds default
to 0. -/
def get_window_list_macos (ws : List WinM) : List WindowInfo :=
  ws.filterMap fun w =>
    if w.layer == some 0 && pyTruthy w.ownerName then
      some ⟨w.number,
            w.ownerName.getD "" ++ " - " ++ w.windowName.getD "",
            w.boundsX.getD 0, w.boundsY.getD 0,
            w.boundsW.getD 0, w.boundsH.getD 0⟩
    else none

/-- `_capture_window_macos(window_id)`: `CGWindowListCopyWindowInfo` for the
window; an empty list is the not-found failure, else the first entry's
bounds are captured with no dimension check. -/
def capture_window_macos (env : Env) (query : Nat → List WinM)
    (window_id : Nat) : Except CapErr Payload :=
  match query window_id with
  | [] => .error (.windowNotFound window_id)
  | w :: _ =>
      .ok (capture_to_base64 env
        ⟨w.boundsY.getD 0, w.boundsX.getD 0, w.boundsW.getD 0, w.boundsH.getD 0⟩)

/-- Spec-side definition (refinement target, from the spec's words): the RGB
pixel at (x, y) of a platform-native BGRX buffer with row width `w` — byte
4i+2 is red, 4i+1 green, 4i blue. -/
def specRgbAt (raw : List Nat) (w x y : Nat) : Pix :=
  (raw.getD (4 * (y * w + x) + 2) 0,
   raw.getD (4 * (y * w + x) + 1) 0,
   raw.getD (4 * (y * w + x)) 0)

/-- Boolean success test on a capture result: did the call return an image
rather than raise? -/
def returnsImage (r : Except CapErr Payload) : Bool :=
  match r with
  | .ok _ => true
  | .error _ => false

/-- Deterministic concrete screen contents for test environments: byte k of
the buffer for rectangle r depends on k and on the rectangle. -/
def bytesFor (r : Rect) : List Nat :=
  (List.range (4 * (r.width.toNat * r.height.toNat))).map
    fun k => (k + r.left.natAbs + 2 * r.top.natAbs) % 251

/-- A concrete stand-in for the external PNG encoder (any function of the
pixel matrix). -/
def pngStub (m : List (List Pix)) : List Nat :=
  m.foldl (fun acc row => row.foldl (fun a p => a ++ [p.1, p.2.1, p.2.2]) acc) []

/-- A concrete stand-in for the external base64 encoder. -/
def b64Stub (bs : List Nat) : String :=
  bs.foldl (fun s b => s ++ toString b ++ ".") ""

/-- A test environment over a given monitor list. -/
def mkEnv (ms : List Rect) : Env :=
  ⟨ms, bytesFor, pngStub, b64Stub⟩

/-- Three-entry monitor list (virtual union plus two physical monitors). -/
def testEnv : Env :=
  mkEnv [⟨0, 0, 5, 4⟩, ⟨0, 0, 3, 4⟩, ⟨0, 3, 2, 3⟩]

/-- Python indexing misses exactly outside `[-len, len)`. -/
theorem pyGet_eq_none_iff (l : List α) (i : Int) :
    pyGet l i = none ↔ (i < -(l.length : Int) ∨ (l.length : Int) ≤ i) := by
  unfold pyGet
  by_cases h : 0 ≤ i
  · rw [if_pos h, List.get?_eq_none]
    constructor
    · intro hle
      right
      omega
    · intro hc
      omega
  · rw [if_neg h]
    dsimp only
    by_cases hj : 0 ≤ (l.length : Int) + i
    · rw [if_pos hj, List.get?_eq_none]
      constructor
      · intro hle
        omega
      · intro hc
        omega
    · simp only [if_neg hj, true_iff]
      omega

/-- C1, counterexample: on a three-entry monitor list, `monitor_number = -1`
is outside `[0, len(monitors))` yet `capture_screen_by_number` returns the
image of the last monitor via Python negative indexing instead of failing
with the monitor-not-found error. -/
theorem C1_counterexample :
    testEnv.monitors.length = 3 ∧ (-1 : Int) < 0 ∧
      capture_screen_by_number testEnv (-1) =
        .ok (capture_to_base64 testEnv ⟨0, 3, 2, 3⟩) :=
  ⟨rfl, by decide, rfl⟩

/-- C1 (amended): `capture_screen_by_number(n)` fails with the typed
monitor-not-found error exactly when `n ≥ len(monitors)` or
`n < -len(monitors)`; for `n` in `[-len(monitors), len(monitors))` — which
includes the negative indices `-len..-1`, accepted by Python indexing — it
returns an image. -/
theorem C1_theorem (env : Env) (n : Int) :
    (n < -(env.monitors.length : Int) ∨ (env.monitors.length : Int) ≤ n →
      capture_screen_by_number env n = .error (.monitorNotFound n)) ∧
    (-(env.monitors.length : Int) ≤ n → n < (env.monitors.length : Int) →
      returnsImage (capture_screen_by_number env n) = true) := by
  constructor
  · intro hc
    have hnone : pyGet env.monitors n = none := (pyGet_eq_none_iff _ _).mpr hc
    unfold capture_screen_by_number
    rw [hnone]
  · intro h1 h2
    have hne : pyGet env.monitors n ≠ none := by
      intro hnone
      rw [pyGet_eq_none_iff] at hnone
      omega
    unfold capture_screen_by_number
    cases hp : pyGet env.monitors n with
    | none => exact absurd hp hne
    | some m => rfl

/-- C1 witness: both branches of the amended statement applied at concrete
indices on the three-monitor environment. -/
theorem C1_witness :
    capture_screen_by_number testEnv 3 = .error (.monitorNotFound 3) ∧
      returnsImage (capture_screen_by_number testEnv (-3)) = true :=
  ⟨(C1_theorem testEnv 3).1 (by decide),
   (C1_theorem testEnv (-3)).2 (by decide) (by decide)⟩

/-- C9: for every reported monitor list, including the empty one,
`get_screen_info` returns `monitor_count = len(monitors) - 1` when more than
one entry is reported and `1` otherwise, hence always at least 1 and never
zero. -/
theorem C9_theorem (env : Env) :
    (get_screen_info env).monitor_count =
      (if 1 < env.monitors.length then env.monitors.length - 1 else 1) ∧
    1 ≤ (get_screen_info env).monitor_count := by
  refine ⟨rfl, ?_⟩
  unfold get_screen_info
  dsimp only
  split <;> omega

/-- C6: when exactly one physical monitor exists — the library reports either
just that monitor or a virtual-union entry plus the monitor — `get_screen_info`
returns `monitor_count = 1`. -/
theorem C6_theorem (env : Env)
    (h : env.monitors.length = 1 ∨ env.monitors.length = 2) :
    (get_screen_info env).monitor_count = 1 := by
  unfold get_screen_info
  dsimp only
  rcases h with h | h <;> rw [h] <;> rfl

/-- C6 witness: a union entry plus one physical monitor yields count 1. -/
theorem C6_witness :
    (get_screen_info (mkEnv [⟨0, 0, 5, 4⟩, ⟨0, 0, 5, 4⟩])).monitor_count = 1 :=
  C6_theorem (mkEnv [⟨0, 0, 5, 4⟩, ⟨0, 0, 5, 4⟩]) (Or.inr (by decide))

/-- C7: on each backend, a window id that does not resolve at capture time
(dead handle on Windows, failing X lookup on Linux, empty Quartz window list
on macOS) makes `capture_window` fail with the typed window-not-found error,
never returning an image. -/
theorem C7_theorem (env : Env) (getRect : Nat → Option WRect)
    (lookup : Nat → Option (Int × Int × Nat × Nat)) (query : Nat → List WinM)
    (window_id : Nat) :
    (getRect window_id = none →
      capture_window_windows env getRect window_id =
        .error (.windowNotFound window_id)) ∧
    (lookup window_id = none →
      capture_window_linux env lookup window_id =
        .error (.windowNotFound window_id)) ∧
    (query window_id = [] →
      capture_window_macos env query window_id =
        .error (.windowNotFound window_id)) := by
  refine ⟨?_, ?_, ?_⟩
  · intro h
    unfold capture_window_windows
    rw [h]
  · intro h
    unfold capture_window_linux
    rw [h]
  · intro h
    unfold capture_window_macos
    rw [h]

/-- C7 witness: the three backends at a concrete unresolvable id. -/
theorem C7_witness :
    capture_window_windows testEnv (fun _ => none) 42 =
        .error (.windowNotFound 42) ∧
      capture_window_linux testEnv (fun _ => none) 42 =
        .error (.windowNotFound 42) ∧
      capture_window_macos testEnv (fun _ => []) 42 =
        .error (.windowNotFound 42) := by
  refine ⟨?_, ?_, ?_⟩
  · exact (C7_theorem testEnv (fun _ => none) (fun _ => none) (fun _ => []) 42).1 rfl
  · exact (C7_theorem testEnv (fun _ => none) (fun _ => none) (fun _ => []) 42).2.1 rfl
  · exact (C7_theorem testEnv (fun _ => none) (fun _ => none) (fun _ => []) 42).2.2 rfl

/-- C5: on all three platform backends every window-list entry has a
non-empty title. -/
theorem C5_theorem (ws : List WinW) (ls : List WinL) (ms : List WinM)
    (w : WindowInfo) :
    (w ∈ get_window_list_windows ws → w.title ≠ "") ∧
    (w ∈ get_window_list_linux ls → w.title ≠ "") ∧
    (w ∈ get_window_list_macos ms → w.title ≠ "") := by
  refine ⟨?_, ?_, ?_⟩
  · intro hmem
    rw [get_window_list_windows, List.mem_filterMap] at hmem
    obtain ⟨a, _, hfa⟩ := hmem
    split at hfa
    · dsimp only at hfa
      split at hfa
      · cases hfa
        rename_i h1 _
        rw [Bool.and_eq_true] at h1
        simpa using h1.2
      · cases hfa
    · cases hfa
  · intro hmem
    rw [get_window_list_linux, List.mem_filterMap] at hmem
    obtain ⟨a, _, hfa⟩ := hmem
    split at hfa
    · cases hfa
      rename_i h1
      rw [Bool.and_eq_true] at h1
      simpa using h1.2
    · cases hfa
  · intro hmem
    rw [get_window_list_macos, List.mem_filterMap] at hmem
    obtain ⟨a, _, hfa⟩ := hmem
    split at hfa
    · cases hfa
      intro hEq
      have hn := congrArg String.length hEq
      rw [String.length_append, String.length_append] at hn
      have h3 : (" - " : String).length = 3 := rfl
      have h0 : ("" : String).length = 0 := rfl
      omega
    · cases hfa

/-- C5 witness: a concrete window on each backend appears with its non-empty
title. -/
theorem C5_witness :
    ((⟨7, "a", 0, 0, 4, 3⟩ : WindowInfo).title ≠ "") ∧
      ((⟨1, "t", 5, 6, 2, 2⟩ : WindowInfo).title ≠ "") ∧
      ((⟨9, "App - Doc", 0, 0, 8, 8⟩ : WindowInfo).title ≠ "") := by
  refine ⟨?_, ?_, ?_⟩
  · exact (C5_theorem [⟨7, true, "a", ⟨0, 0, 4, 3⟩⟩] [] []
      ⟨7, "a", 0, 0, 4, 3⟩).1 (by decide)
  · exact (C5_theorem [] [⟨1, true, true, some "t", none, 2, 2, 5, 6⟩] []
      ⟨1, "t", 5, 6, 2, 2⟩).2.1 (by decide)
  · exact (C5_theorem [] []
      [⟨9, some 0, some "App", some "Doc", some 0, some 0, some 8, some 8⟩]
      ⟨9, "App - Doc", 0, 0, 8, 8⟩).2.2 (by decide)

/-- C10: the Windows enumerator only returns entries with positive width and
height, while the Linux and macOS enumerators apply no such filter — both can
return entries with zero dimensions. -/
theorem C10_theorem (ws : List WinW) (w : WindowInfo) :
    (w ∈ get_window_list_windows ws → 0 < w.width ∧ 0 < w.height) ∧
    (∃ ls : List WinL, ∃ v ∈ get_window_list_linux ls,
      v.width = 0 ∧ v.height = 0) ∧
    (∃ ms : List WinM, ∃ v ∈ get_window_list_macos ms,
      v.width = 0 ∧ v.height = 0) := by
  refine ⟨?_, ?_, ?_⟩
  · intro hmem
    rw [get_window_list_windows, List.mem_filterMap] at hmem
    obtain ⟨a, _, hfa⟩ := hmem
    split at hfa
    · dsimp only at hfa
      split at hfa
      · cases hfa
        rename_i h2
        rw [Bool.and_eq_true] at h2
        constructor
        · simpa using h2.1
        · simpa using h2.2
      · cases hfa
    · cases hfa
  · exact ⟨[⟨1, true, true, some "t", none, 0, 0, 5, 6⟩],
      ⟨1, "t", 5, 6, 0, 0⟩, by decide, rfl, rfl⟩
  · exact ⟨[⟨9, some 0, some "App", none, none, none, none, none⟩],
      ⟨9, "App - ", 0, 0, 0, 0⟩, by decide, rfl, rfl⟩

/-- C10 witness: a concrete visible Windows window with a 4×3 rect passes the
positive-dimension filter. -/
theorem C10_witness :
    0 < (⟨7, "a", 0, 0, 4, 3⟩ : WindowInfo).width ∧
      0 < (⟨7, "a", 0, 0, 4, 3⟩ : WindowInfo).height :=
  (C10_theorem [⟨7, true, "a", ⟨0, 0, 4, 3⟩⟩] ⟨7, "a", 0, 0, 4, 3⟩).1 (by decide)

/-- A Windows rect lookup resolving window 7 to a zero-width, height-7
rectangle (left 2, top 3, right 2, bottom 10): a degenerate region as a
minimized or collapsed window would give. -/
def zeroWidthLookup : Nat → Option WRect :=
  fun i => if i == 7 then some ⟨2, 3, 2, 10⟩ else none

/-- C2, counterexample: window 7 resolves to a rectangle of zero width, yet
`capture_window` on the Windows backend returns an image instead of failing
with an invalid-region error — the code never validates dimensions. -/
theorem C2_counterexample :
    zeroWidthLookup 7 = some ⟨2, 3, 2, 10⟩ ∧
      ((2 : Int) - 2 = 0) ∧
      returnsImage (capture_window_windows testEnv zeroWidthLookup 7) = true :=
  ⟨rfl, rfl, rfl⟩

/-- C2 (amended): `capture_window` performs no dimension validation — on the
Windows and macOS backends, whenever the id resolves, the resolved rectangle
is captured unconditionally, even with zero width or height; no
invalid-region failure exists. -/
theorem C2_theorem (env : Env) (getRect : Nat → Option WRect)
    (query : Nat → List WinM) (window_id : Nat) :
    (∀ rect, getRect window_id = some rect →
      capture_window_windows env getRect window_id =
        .ok (capture_to_base64 env
          ⟨rect.t, rect.l, rect.r - rect.l, rect.b - rect.t⟩)) ∧
    (∀ w rest, query window_id = w :: rest →
      capture_window_macos env query window_id =
        .ok (capture_to_base64 env
          ⟨w.boundsY.getD 0, w.boundsX.getD 0,
           w.boundsW.getD 0, w.boundsH.getD 0⟩)) := by
  constructor
  · intro rect h
    unfold capture_window_windows
    rw [h]
  · intro w rest h
    unfold capture_window_macos
    rw [h]

/-- C2 witness: the zero-width window of the counterexample is captured as
the degenerate rectangle, and a macOS window with no bounds is captured as
the all-zero rectangle. -/
theorem C2_witness :
    capture_window_windows testEnv zeroWidthLookup 7 =
        .ok (capture_to_base64 testEnv ⟨3, 2, 0, 7⟩) ∧
      capture_window_macos testEnv
          (fun _ => [⟨9, some 0, some "App", none, none, none, none, none⟩]) 9 =
        .ok (capture_to_base64 testEnv ⟨0, 0, 0, 0⟩) := by
  constructor
  · exact (C2_theorem testEnv zeroWidthLookup
      (fun _ => []) 7).1 ⟨2, 3, 2, 10⟩ rfl
  · exact (C2_theorem testEnv zeroWidthLookup
      (fun _ => [⟨9, some 0, some "App", none, none, none, none, none⟩]) 9).2
      ⟨9, some 0, some "App", none, none, none, none, none⟩ [] rfl

/-- Sum of the widths of the first `i` images: the paste loop's running x
offset when image `i` is pasted. -/
def widthsBefore (imgs : List Image) (i : Nat) : Nat :=
  ((imgs.take i).map Image.width).sum

theorem widthsBefore_zero (imgs : List Image) : widthsBefore imgs 0 = 0 := rfl

theorem widthsBefore_cons (hd : Image) (rest : List Image) (i : Nat) :
    widthsBefore (hd :: rest) (i + 1) = hd.width + widthsBefore rest i := by
  unfold widthsBefore
  rw [List.take_succ_cons, List.map_cons, List.sum_cons]

theorem paste_pix_in (canvas img : Image) (xoff x y : Nat)
    (h : xoff ≤ x ∧ x < xoff + img.width ∧ y < img.height) :
    (paste canvas img xoff).pix x y = img.pix (x - xoff) y := if_pos h

theorem paste_pix_out (canvas img : Image) (xoff x y : Nat)
    (h : ¬(xoff ≤ x ∧ x < xoff + img.width ∧ y < img.height)) :
    (paste canvas img xoff).pix x y = canvas.pix x y := if_neg h

theorem stitchAux_width (L : List Image) :
    ∀ (acc : Image) (xoff : Nat), (stitchAux acc xoff L).width = acc.width := by
  induction L with
  | nil =>
      intro acc xoff
      rfl
  | cons img rest ih =>
      intro acc xoff
      exact ih (paste acc img xoff) (xoff + img.width)

theorem stitchAux_height (L : List Image) :
    ∀ (acc : Image) (xoff : Nat), (stitchAux acc xoff L).height = acc.height := by
  induction L with
  | nil =>
      intro acc xoff
      rfl
  | cons img rest ih =>
      intro acc xoff
      exact ih (paste acc img xoff) (xoff + img.width)

/-- Pixels left of the running offset are never touched by later pastes. -/
theorem stitchAux_pix_low (L : List Image) :
    ∀ (acc : Image) (xoff X y : Nat), X < xoff →
      (stitchAux acc xoff L).pix X y = acc.pix X y := by
  induction L with
  | nil =>
      intro acc xoff X y _
      rfl
  | cons img rest ih =>
      intro acc xoff X y hX
      calc (stitchAux acc xoff (img :: rest)).pix X y
          = (paste acc img xoff).pix X y := ih _ _ _ _ (by omega)
        _ = acc.pix X y := paste_pix_out _ _ _ _ _ (by omega)

/-- The paste loop places image `i` at x offset `xoff + w1+...+w(i-1)`,
y offset 0, and no later paste overwrites it. -/
theorem stitchAux_pix_at (L : List Image) :
    ∀ (acc : Image) (xoff i x y : Nat) (img : Image),
      L.get? i = some img → x < img.width → y < img.height →
      (stitchAux acc xoff L).pix (xoff + widthsBefore L i + x) y = img.pix x y := by
  induction L with
  | nil =>
      intro acc xoff i x y img h _ _
      exact Option.noConfusion h
  | cons hd rest ih =>
      intro acc xoff i x y img hget hx hy
      cases i with
      | zero =>
          have himg : hd = img := by injection hget
          subst himg
          simp only [widthsBefore_zero, Nat.add_zero]
          have hlow : xoff + x < xoff + hd.width := by omega
          calc (stitchAux acc xoff (hd :: rest)).pix (xoff + x) y
              = (paste acc hd xoff).pix (xoff + x) y :=
                stitchAux_pix_low rest _ _ _ _ hlow
            _ = hd.pix (xoff + x - xoff) y :=
                paste_pix_in _ _ _ _ _ ⟨by omega, hlow, hy⟩
            _ = hd.pix x y := by rw [Nat.add_sub_cancel_left]
      | succ i =>
          have hget' : rest.get? i = some img := hget
          have harith : xoff + widthsBefore (hd :: rest) (i + 1) + x
              = xoff + hd.width + widthsBefore rest i + x := by
            rw [widthsBefore_cons]
            omega
          rw [harith]
          exact ih (paste acc hd xoff) (xoff + hd.width) i x y img hget' hx hy

theorem stitch_width (imgs : List Image) :
    (stitch imgs).width = (imgs.map Image.width).sum :=
  stitchAux_width imgs _ 0

theorem stitch_height (imgs : List Image) :
    (stitch imgs).height = imgs.foldl (fun a i => max a i.height) 0 :=
  stitchAux_height imgs _ 0

theorem stitch_pix (imgs : List Image) (i x y : Nat) (img : Image)
    (hget : imgs.get? i = some img) (hx : x < img.width)
    (hy : y < img.height) :
    (stitch imgs).pix (widthsBefore imgs i + x) y = img.pix x y := by
  have h := stitchAux_pix_at imgs
    ⟨(imgs.map Image.width).sum,
     imgs.foldl (fun a i => max a i.height) 0,
     fun _ _ => (0, 0, 0)⟩
    0 i x y img hget hx hy
  simpa [stitch] using h

theorem foldlMax_ge_start (L : List Image) :
    ∀ a : Nat, a ≤ L.foldl (fun b i => max b i.height) a := by
  induction L with
  | nil =>
      intro a
      exact Nat.le_refl a
  | cons hd rest ih =>
      intro a
      exact Nat.le_trans (Nat.le_max_left a hd.height) (ih (max a hd.height))

theorem foldlMax_mem_le (L : List Image) :
    ∀ (a : Nat) (img : Image), img ∈ L →
      img.height ≤ L.foldl (fun b i => max b i.height) a := by
  induction L with
  | nil =>
      intro a img h
      exact absurd h (List.not_mem_nil img)
  | cons hd rest ih =>
      intro a img hmem
      rcases List.mem_cons.mp hmem with h | h
      · subst h
        exact Nat.le_trans (Nat.le_max_right a img.height) (foldlMax_ge_start rest _)
      · exact ih _ img h

theorem foldlMax_attained (L : List Image) :
    ∀ a : Nat, L.foldl (fun b i => max b i.height) a = a ∨
      ∃ img ∈ L, L.foldl (fun b i => max b i.height) a = img.height := by
  induction L with
  | nil =>
      intro a
      exact Or.inl rfl
  | cons hd rest ih =>
      intro a
      rcases ih (max a hd.height) with h | ⟨img, hm, he⟩
      · rcases Nat.le_total a hd.height with hc | hc
        · exact Or.inr ⟨hd, List.mem_cons_self hd rest, h.trans (max_eq_right hc)⟩
        · exact Or.inl (h.trans (max_eq_left hc))
      · exact Or.inr ⟨img, List.mem_cons_of_mem hd hm, he⟩

/-- PNG bytes depend only on dimensions and in-range pixels. -/
theorem toMatrix_congr (a b : Image) (hw : a.width = b.width)
    (hh : a.height = b.height)
    (hp : ∀ x y, x < a.width → y < a.height → a.pix x y = b.pix x y) :
    a.toMatrix = b.toMatrix := by
  unfold Image.toMatrix
  rw [← hw, ← hh]
  apply List.map_congr_left
  intro y hy
  rw [List.mem_range] at hy
  apply List.map_congr_left
  intro x hx
  rw [List.mem_range] at hx
  exact hp x y hx hy

/-- C3: with at least one physical monitor (`monitors[1:]` non-empty),
`capture_all_screens` returns the stitched image: its width is the sum of the
physical monitors' widths, its height is the maximum of the captured heights
(an upper bound, attained by some image), and the i-th captured image sits at
x offset `w1+...+w(i-1)`, y offset 0, in enumeration order. -/
theorem C3_theorem (env : Env) (hne : env.monitors.drop 1 ≠ [])
    (i x y : Nat) (img : Image)
    (hget : ((env.monitors.drop 1).map (grabImage env)).get? i = some img)
    (hx : x < img.width) (hy : y < img.height) :
    capture_all_screens env =
        .ok (encodePayload env
          (stitch ((env.monitors.drop 1).map (grabImage env)))) ∧
      (stitch ((env.monitors.drop 1).map (grabImage env))).width =
        ((env.monitors.drop 1).map (fun m => m.width.toNat)).sum ∧
      (∀ im ∈ (env.monitors.drop 1).map (grabImage env),
        im.height ≤
          (stitch ((env.monitors.drop 1).map (grabImage env))).height) ∧
      (∃ im ∈ (env.monitors.drop 1).map (grabImage env),
        (stitch ((env.monitors.drop 1).map (grabImage env))).height =
          im.height) ∧
      (stitch ((env.monitors.drop 1).map (grabImage env))).pix
          (widthsBefore ((env.monitors.drop 1).map (grabImage env)) i + x) y =
        img.pix x y := by
  refine ⟨?_, ?_, ?_, ?_, ?_⟩
  · cases h : env.monitors.drop 1 with
    | nil => exact absurd h hne
    | cons hd tl => simp [capture_all_screens, h]
  · rw [stitch_width, List.map_map]
    rfl
  · intro im him
    rw [stitch_height]
    exact foldlMax_mem_le _ 0 im him
  · rcases foldlMax_attained ((env.monitors.drop 1).map (grabImage env)) 0
        with h0 | ⟨im, hm, he⟩
    · obtain ⟨hd, tl, hL⟩ :
          ∃ hd tl, (env.monitors.drop 1).map (grabImage env) = hd :: tl := by
        cases hL : (env.monitors.drop 1).map (grabImage env) with
        | nil => exact absurd (List.map_eq_nil_iff.mp hL) hne
        | cons hd tl => exact ⟨hd, tl, rfl⟩
      have hmem : hd ∈ (env.monitors.drop 1).map (grabImage env) := by
        rw [hL]
        exact List.mem_cons_self hd tl
      have hle : hd.height ≤ 0 := by
        have h1 := foldlMax_mem_le ((env.monitors.drop 1).map (grabImage env))
          0 hd hmem
        rwa [h0] at h1
      refine ⟨hd, hmem, ?_⟩
      rw [stitch_height, h0]
      omega
    · exact ⟨im, hm, by rw [stitch_height, he]⟩
  · exact stitch_pix _ i x y img hget hx hy

/-- C3 witness: with two physical monitors of widths 3 and 2, the second
image's pixel (0, 0) lands at x offset 3 of the stitched canvas. -/
theorem C3_witness :
    (stitch ((testEnv.monitors.drop 1).map (grabImage testEnv))).pix
        (widthsBefore ((testEnv.monitors.drop 1).map (grabImage testEnv)) 1 + 0)
        0 =
      (grabImage testEnv ⟨0, 3, 2, 3⟩).pix 0 0 :=
  (C3_theorem testEnv (by decide) 1 0 0 (grabImage testEnv ⟨0, 3, 2, 3⟩)
    rfl (by decide) (by decide)).2.2.2.2

/-- C4: on a single-monitor system — the library reports the virtual union
alone, or a union entry together with one physical monitor covering the same
rectangle — `capture_all_screens` returns byte-for-byte the same payload as
`capture_screen_by_number 0` on the virtual-union region. -/
theorem C4_theorem (env : Env) (u : Rect)
    (h : env.monitors = [u] ∨ env.monitors = [u, u]) :
    capture_all_screens env = capture_screen_by_number env 0 := by
  rcases h with h | h
  · simp [capture_all_screens, capture_screen_by_number, pyGet, h]
  · have key : (stitch [grabImage env u]).toMatrix =
        (grabImage env u).toMatrix := by
      apply toMatrix_congr
      · rw [stitch_width]
        simp
      · rw [stitch_height]
        simp
      · intro x y hx hy
        have hx' : x < (grabImage env u).width := by
          rw [stitch_width] at hx
          simpa using hx
        have hy' : y < (grabImage env u).height := by
          rw [stitch_height] at hy
          simpa using hy
        have hp := stitch_pix [grabImage env u] 0 x y (grabImage env u)
          rfl hx' hy'
        simpa [widthsBefore] using hp
    simp [capture_all_screens, capture_screen_by_number, pyGet, h,
      capture_to_base64, encodePayload, key]

/-- C4 witness: a union entry plus an identical single physical monitor. -/
theorem C4_witness :
    capture_all_screens (mkEnv [⟨0, 0, 5, 4⟩, ⟨0, 0, 5, 4⟩]) =
      capture_screen_by_number (mkEnv [⟨0, 0, 5, 4⟩, ⟨0, 0, 5, 4⟩]) 0 :=
  C4_theorem (mkEnv [⟨0, 0, 5, 4⟩, ⟨0, 0, 5, 4⟩]) ⟨0, 0, 5, 4⟩ (Or.inr rfl)

/-- C8: every successful capture — by monitor number, all-screens stitch, or
window capture on any backend — returns the base64 encoding of the PNG of a
pixel matrix together with the constant mime type "image/png", every
non-stitched result is the RGB decoding of the grabbed BGRX buffer, and that
decoding agrees pixel-for-pixel with the spec's BGRX-to-RGB normalization. -/
theorem C8_theorem (env : Env) :
    (∀ (w h : Nat) (raw : List Nat) (x y : Nat),
      (frombytesBGRX w h raw).pix x y = specRgbAt raw w x y) ∧
    (∀ (n : Int) (p : Payload), capture_screen_by_number env n = .ok p →
      ∃ m, pyGet env.monitors n = some m ∧
        p = encodePayload env (grabImage env m)) ∧
    (∀ p : Payload, capture_all_screens env = .ok p →
      (∃ m, p = encodePayload env (grabImage env m)) ∨
        p = encodePayload env
          (stitch ((env.monitors.drop 1).map (grabImage env)))) ∧
    (∀ (getRect : Nat → Option WRect) (wid : Nat) (p : Payload),
      capture_window_windows env getRect wid = .ok p →
      ∃ r, p = encodePayload env (grabImage env r)) ∧
    (∀ (lookup : Nat → Option (Int × Int × Nat × Nat)) (wid : Nat)
        (p : Payload),
      capture_window_linux env lookup wid = .ok p →
      ∃ r, p = encodePayload env (grabImage env r)) ∧
    (∀ (query : Nat → List WinM) (wid : Nat) (p : Payload),
      capture_window_macos env query wid = .ok p →
      ∃ r, p = encodePayload env (grabImage env r)) ∧
    (∀ img : Image, (encodePayload env img).mime_type = "image/png" ∧
      (encodePayload env img).content = env.b64 (env.png img.toMatrix)) := by
  refine ⟨?_, ?_, ?_, ?_, ?_, ?_, ?_⟩
  · intro w h raw x y
    rfl
  · intro n p hp
    unfold capture_screen_by_number at hp
    cases hm : pyGet env.monitors n with
    | none =>
        rw [hm] at hp
        simp at hp
    | some m =>
        rw [hm] at hp
        cases hp
        exact ⟨m, rfl, rfl⟩
  · intro p hp
    unfold capture_all_screens at hp
    dsimp only at hp
    split at hp
    · cases hm : env.monitors with
      | nil =>
          rw [hm] at hp
          simp at hp
      | cons m tl =>
          rw [hm] at hp
          cases hp
          exact Or.inl ⟨m, rfl⟩
    · cases hp
      exact Or.inr rfl
  · intro getRect wid p hp
    unfold capture_window_windows at hp
    cases hr : getRect wid with
    | none =>
        rw [hr] at hp
        simp at hp
    | some rect =>
        rw [hr] at hp
        cases hp
        exact ⟨_, rfl⟩
  · intro lookup wid p hp
    unfold capture_window_linux at hp
    cases hr : lookup wid with
    | none =>
        rw [hr] at hp
        simp at hp
    | some g =>
        rw [hr] at hp
        obtain ⟨gx, gy, gw, gh⟩ := g
        cases hp
        exact ⟨_, rfl⟩
  · intro query wid p hp
    unfold capture_window_macos at hp
    cases hr : query wid with
    | nil =>
        rw [hr] at hp
        simp at hp
    | cons w rest =>
        rw [hr] at hp
        cases hp
        exact ⟨_, rfl⟩
  · intro img
    exact ⟨rfl, rfl⟩

/-- C8 witness: capturing monitor 1 of the test environment yields the
encoded payload of its RGB-decoded grab. -/
theorem C8_witness :
    ∃ m, pyGet testEnv.monitors 1 = some m ∧
      capture_to_base64 testEnv ⟨0, 0, 3, 4⟩ =
        encodePayload testEnv (grabImage testEnv m) :=
  (C8_theorem testEnv).2.1 1 (capture_to_base64 testEnv ⟨0, 0, 3, 4⟩) rfl

end ScreenOps
